import Mathlib

/-!
Verification of the blinkos core loop (blinkos.cpp): a shallow embedding of
the millisecond clock accumulator, the button grab-and-clear hand-off, the
inbound IR packet pipeline (length check, CRC-8 validation, header routing),
the pixel dirty-bit forwarding loop, and the inactivity sleep timer, together
with theorems settling the specified properties.

Bytes are modelled as natural numbers reduced mod 256 wherever the C code
reads a `uint8_t`.  Byte memories (packet buffers) are modelled as functions
`Nat → Nat` from index to byte value.
-/

namespace Blinkos

/-- One shift-and-conditionally-xor round of the avr-libc `_crc8_ccitt_update`
inner loop (polynomial 0x07, MSB first), on a byte value `d < 256`. -/
def crc8_bit_step (d : Nat) : Nat :=
  let s := (d % 256) * 2 % 256
  if 128 ≤ d % 256 then s ^^^ 7 else s

/-- The avr-libc `_crc8_ccitt_update` function (util/crc16.h, an external
library the source includes): xor the byte into the running CRC, then run
eight `crc8_bit_step` rounds. -/
def crc8_ccitt_update (c b : Nat) : Nat :=
  crc8_bit_step^[8] ((c % 256) ^^^ (b % 256))

/-- The running CRC after feeding bytes `data 0, data 1, ..., data (n-1)`
in order into `crc8_ccitt_update`, starting from the seed 0xFF used by
`crccheck` (blinkos.cpp line 127). -/
def crcFold (data : Nat → Nat) : Nat → Nat
  | 0 => 255
  | n + 1 => crc8_ccitt_update (crcFold data n) (data n)

/-- `crccheck` (blinkos.cpp lines 125-141): `while (--len)` feeds bytes into
the CRC, then the byte the pointer rests on is compared with the computed
CRC.  `len` is a `uint8_t`, so the pre-decrement wraps: the loop body runs
`(len + 255) % 256` times, reading bytes `0 .. iters-1`, and the comparison
reads the byte at index `iters`. -/
def crccheck (data : Nat → Nat) (len : Nat) : Bool :=
  data ((len + 255) % 256) % 256 == crcFold data ((len + 255) % 256)

/-- The per-face view the pipeline gets from the external IR driver: whether
a complete frame is pending (`irDataIsPacketReady`), its total length
(`irDataPacketLen`, a `uint8_t`), and its byte buffer (`irDataPacketBuffer`). -/
structure frame_t where
  ready : Bool
  len : Nat
  bytes : Nat → Nat

/-- One element of `loopstate_in.ir_data_buffers`: the userland-visible
descriptor for a face (pointer modelled as a plain address value, length,
ready flag). -/
structure ir_data_buffer_t where
  data : Nat
  len : Nat
  ready_flag : Bool
  deriving DecidableEq

/-- The body of the per-face loop of `processPendingIRPackets` (blinkos.cpp
lines 149-211) for a single face: drop frames shorter than 2 bytes, validate
the CRC, then route on the header byte.  Returns
(`irDataMarkPacketRead` was called, updated descriptor). -/
def processFace (fr : frame_t) (b : ir_data_buffer_t) : Bool × ir_data_buffer_t :=
  if fr.ready then
    if fr.len < 2 then
      (true, b)
    else
      if crccheck fr.bytes fr.len then
        if fr.bytes 0 % 256 == 1 then
          (false, { b with len := fr.len - 1, ready_flag := true })
        else if fr.bytes 0 % 256 == 2 then
          (true, b)
        else
          (true, b)
      else
        (true, b)
  else
    (false, b)

/-- `buttonstate_t` (blinkos_button.h): event flag bits, a click counter and
the current-down boolean, written from interrupt context. -/
structure buttonstate_t where
  bitflags : Nat
  clickcount : Nat
  down : Bool
  deriving DecidableEq

/-- `grabAndClearButtonState` (blinkos.cpp lines 88-99): inside an atomic
block, copy all three fields of the global `buttonstate` into the
destination, then zero only the flag bits of the global.  Modelled as a pure
function from the global's value to (new global value, destination value). -/
def grabAndClearButtonState (buttonstate : buttonstate_t) :
    buttonstate_t × buttonstate_t :=
  ({ buttonstate with bitflags := 0 }, buttonstate)

/-- The static accumulator state of `timer_256us_callback_sei` together with
a count of how many times `timer_1000us_callback_sei` has been invoked. -/
structure clockstate_t where
  step_us : Nat
  ms_callbacks : Nat
  deriving DecidableEq

/-- `timer_256us_callback_sei` (blinkos.cpp lines 105-116): add 256 to the
accumulator; when it reaches 1000 invoke the millisecond callback and
subtract 1000.  (`step_us` is a C `unsigned`; its value stays below 1256,
far from the 16-bit wrap, so plain `Nat` arithmetic is exact.) -/
def timer_256us_callback_sei (s : clockstate_t) : clockstate_t :=
  if 1000 ≤ s.step_us + 256 then
    { step_us := s.step_us + 256 - 1000, ms_callbacks := s.ms_callbacks + 1 }
  else
    { step_us := s.step_us + 256, ms_callbacks := s.ms_callbacks }

/-- Initial clock state: the `static unsigned step_us = 0` of the source,
with no millisecond callbacks delivered yet. -/
def clockInit : clockstate_t := { step_us := 0, ms_callbacks := 0 }

/-- `IR_FACE_COUNT`.  Modelled from the spec: the hardware headers fixing the
face count are not under src/; one face per neighbor-facing port, six on the
physical tile.  No claim depends on the particular value. -/
def IR_FACE_COUNT : Nat := 6

/-- `PIXEL_FACE_COUNT`.  Modelled from the spec, as for `IR_FACE_COUNT`. -/
def PIXEL_FACE_COUNT : Nat := 6

/-- `MILLIS_PER_SECOND` (timer.h, not under src/): milliseconds per second. -/
def MILLIS_PER_SECOND : Nat := 1000

/-- `SLEEP_TIMEOUT_SECONDS` (blinkos.cpp line 44): ten minutes. -/
def SLEEP_TIMEOUT_SECONDS : Nat := 10 * 60

/-- `SLEEP_TIMEOUT_MS` (blinkos.cpp line 46). -/
def SLEEP_TIMEOUT_MS : Nat := SLEEP_TIMEOUT_SECONDS * MILLIS_PER_SECOND

/-- `pixelColor_t` (pixel.h, not under src/): the color payload is kept
abstract as a raw value; the `reserved` bit is the dirty bit the loop tests
(blinkos.cpp line 269). -/
structure pixelColor_t where
  raw : Nat
  reserved : Bool
  deriving DecidableEq

/-- `loopstate_out_t`: the per-face colors the user callback filled in. -/
structure loopstate_out_t where
  colors : Nat → pixelColor_t

/-- `loopstate_in_t`: the record the orchestrator passes to the user
callback — one-shot woke flag, millisecond snapshot, button snapshot, and
the per-face inbound IR descriptors. -/
structure loopstate_in_t where
  woke_flag : Bool
  millis : Nat
  buttonstate : buttonstate_t
  ir_data_buffers : Nat → ir_data_buffer_t

/-- The zero-initialized global `loopstate_in` (C statics start zeroed). -/
def loopstate_in_init : loopstate_in_t :=
  { woke_flag := false
    millis := 0
    buttonstate := { bitflags := 0, clickcount := 0, down := false }
    ir_data_buffers := fun _ => { data := 0, len := 0, ready_flag := false } }

/-- The startup loop of `run` (blinkos.cpp lines 228-233) over faces
`0 .. n-1`: set each face's data pointer to the driver packet buffer plus
one byte and clear its ready flag.  `irDataPacketBuffer` is modelled as a
map from face to buffer address. -/
def startupBuffersUpTo (irDataPacketBuffer : Nat → Nat)
    (bufs : Nat → ir_data_buffer_t) : Nat → Nat → ir_data_buffer_t
  | 0 => bufs
  | n + 1 => fun f =>
    if f = n then
      { startupBuffersUpTo irDataPacketBuffer bufs n n with
          data := irDataPacketBuffer n + 1, ready_flag := false }
    else startupBuffersUpTo irDataPacketBuffer bufs n f

/-- The per-face loop of `processPendingIRPackets` (blinkos.cpp lines
147-212) over faces `0 .. n-1`, applying `processFace` to each face's
descriptor in order.  Only the descriptor updates are tracked here; the
consumed/not-consumed result is settled per face by `processFace`. -/
def processIRUpTo (frames : Nat → frame_t) (bufs : Nat → ir_data_buffer_t) :
    Nat → Nat → ir_data_buffer_t
  | 0 => bufs
  | n + 1 => fun f =>
    if f = n then (processFace (frames n) (processIRUpTo frames bufs n n)).2
    else processIRUpTo frames bufs n f

/-- The pixel-forwarding loop of `run` (blinkos.cpp lines 265-274) over
faces `0 .. n-1`: a face's color is forwarded to the display buffer
(`pixel_bufferedSetPixel`) exactly when its `reserved` (dirty) bit is set. -/
def applyColorsUpTo (lout : loopstate_out_t) (disp : Nat → pixelColor_t) :
    Nat → Nat → pixelColor_t
  | 0 => disp
  | n + 1 =>
    if (lout.colors n).reserved then
      fun f => if f = n then lout.colors n else applyColorsUpTo lout disp n f
    else applyColorsUpTo lout disp n

/-- The whole-system state the main loop mutates: the global `loopstate_in`,
the global `buttonstate`, the sleep timer deadline, and the external display
buffer contents. -/
structure sysstate_t where
  lin : loopstate_in_t
  buttonstate : buttonstate_t
  deadline : Nat
  display : Nat → pixelColor_t

/-- The inputs one iteration of the main loop consumes from outside the
orchestrator: the millisecond snapshot, the IR driver's per-face frame
state, and the `loopstate_out` the (external) user callback produces. -/
structure iterenv_t where
  millis_snapshot : Nat
  frames : Nat → frame_t
  lout : loopstate_out_t

/-- `postponeSleep` (blinkos.cpp lines 70-72): `sleepTimer.set(SLEEP_TIMEOUT_MS)`.
The `Timer` class is not under src/; modelled from the spec: reset the
deadline to now + timeout. -/
def postponeSleep (now : Nat) (s : sysstate_t) : sysstate_t :=
  { s with deadline := now + SLEEP_TIMEOUT_MS }

/-- One iteration of the `while (1)` body of `run` (blinkos.cpp lines
247-286), in source order: take the millis snapshot, run the IR pipeline
over the descriptors, grab-and-clear the button state into `loopstate_in`,
store the snapshot, call the user callback (external; its output is supplied
by the environment), forward the dirty-bit pixels, and finally, if the sleep
timer has expired, execute `sleep()` — whose only core-state effect is
setting `loopstate_in.woke_flag` on wake (blinkos.cpp line 65).
`Timer.isExpired` is not under src/ and is modelled from the spec: expired
iff the snapshot has reached the deadline.  Returns the new system state
and the `loopstate_in` value as passed to the user callback. -/
def runIteration (env : iterenv_t) (s : sysstate_t) :
    sysstate_t × loopstate_in_t :=
  let bufs := processIRUpTo env.frames s.lin.ir_data_buffers IR_FACE_COUNT
  let g := grabAndClearButtonState s.buttonstate
  let linAtCall : loopstate_in_t :=
    { woke_flag := s.lin.woke_flag
      millis := env.millis_snapshot
      buttonstate := g.2
      ir_data_buffers := bufs }
  let wokeAfter := if s.deadline ≤ env.millis_snapshot then true
                   else linAtCall.woke_flag
  ({ lin := { linAtCall with woke_flag := wokeAfter }
     buttonstate := g.1
     deadline := s.deadline
     display := applyColorsUpTo env.lout s.display PIXEL_FACE_COUNT },
   linAtCall)

/-- The state of the end-to-end sleep scenario: millisecond clock, sleep
deadline, whether the device has entered low-power sleep, and how many
Awake-to-Asleep transitions have been executed. -/
structure sleepsim_t where
  millis : Nat
  deadline : Nat
  asleep : Bool
  sleepCount : Nat
  deriving DecidableEq

/-- State right after startup: `run` calls `postponeSleep()` once before the
loop (blinkos.cpp line 245), arming the deadline at `SLEEP_TIMEOUT_MS`. -/
def sleepSimInit : sleepsim_t :=
  { millis := 0, deadline := SLEEP_TIMEOUT_MS, asleep := false, sleepCount := 0 }

/-- One 1-millisecond step of the no-button-activity scenario: the clock
advances and the orchestrator's expiry check (blinkos.cpp lines 279-282)
runs.  With no button activity `postponeSleep` is never called again
(blinkos.cpp lines 76-84), and `power_sleep` blocks until a button wake
interrupt, which never arrives, so an asleep state is absorbing. -/
def sleepSimStep (s : sleepsim_t) : sleepsim_t :=
  if s.asleep then s
  else if s.deadline ≤ s.millis + 1 then
    { millis := s.millis + 1, deadline := s.deadline, asleep := true,
      sleepCount := s.sleepCount + 1 }
  else
    { s with millis := s.millis + 1 }

/-- The number of Awake-to-Asleep transitions executed after `n` injected
1ms ticks of the scenario. -/
def sleepCountAfter (n : Nat) : Nat :=
  (sleepSimStep^[n] sleepSimInit).sleepCount

/-- A quiescent per-face driver state: no frame pending on any face. -/
def noFrames : Nat → frame_t :=
  fun _ => { ready := false, len := 0, bytes := fun _ => 0 }

/-- Concrete iteration environment for the woke-flag scenario: quiescent
driver, all callback colors clean, millisecond snapshot 0. -/
def c3_env : iterenv_t :=
  { millis_snapshot := 0
    frames := noFrames
    lout := { colors := fun _ => { raw := 0, reserved := false } } }

/-- Concrete system state for the woke-flag scenario: freshly zeroed
loopstate, an already-expired sleep deadline, blank display. -/
def c3_sPre : sysstate_t :=
  { lin := loopstate_in_init
    buttonstate := { bitflags := 0, clickcount := 0, down := false }
    deadline := 0
    display := fun _ => { raw := 0, reserved := false } }

/-- Concrete iteration environment for the dirty-bit scenario: face 0's
output color carries the dirty bit, face 1's does not. -/
def c7_env : iterenv_t :=
  { millis_snapshot := 0
    frames := noFrames
    lout := { colors := fun f =>
      if f = 0 then { raw := 9, reserved := true }
      else { raw := 7, reserved := false } } }

/-- Concrete system state for the dirty-bit scenario. -/
def c7_s : sysstate_t :=
  { lin := loopstate_in_init
    buttonstate := { bitflags := 0, clickcount := 0, down := false }
    deadline := 1000
    display := fun _ => { raw := 3, reserved := false } }

/-- Concrete iteration environment for the descriptor-invariant scenario. -/
def c9_env : iterenv_t :=
  { millis_snapshot := 5
    frames := noFrames
    lout := { colors := fun _ => { raw := 0, reserved := false } } }

/-- Concrete system state for the descriptor-invariant scenario: face 0's
descriptor already has its ready flag set from an earlier user-data frame. -/
def c9_s : sysstate_t :=
  { lin := { woke_flag := false
             millis := 0
             buttonstate := { bitflags := 0, clickcount := 0, down := false }
             ir_data_buffers := fun f =>
               { data := 100 * f + 1, len := 3, ready_flag := true } }
    buttonstate := { bitflags := 0, clickcount := 0, down := false }
    deadline := 1000
    display := fun _ => { raw := 0, reserved := false } }

/-! Helper lemmas. -/

/-- The running CRC over the first `n` bytes only depends on those bytes. -/
theorem crcFold_congr (g g2 : Nat → Nat) (n : Nat)
    (h : ∀ i, i < n → g i = g2 i) : crcFold g n = crcFold g2 n := by
  induction n with
  | zero => rfl
  | succ k ih =>
    unfold crcFold
    rw [ih (fun i hi => h i (by omega)), h k (by omega)]

/-- For the lengths the caller can actually pass (a `uint8_t` that is at
least 2), `crccheck` is the comparison of byte `len - 1` against the CRC of
bytes `0 .. len - 2`. -/
theorem crccheck_eq (g : Nat → Nat) (len : Nat) (h2 : 2 ≤ len)
    (h255 : len ≤ 255) :
    crccheck g len = (g (len - 1) % 256 == crcFold g (len - 1)) := by
  unfold crccheck
  rw [show (len + 255) % 256 = len - 1 by omega]

/-- `processFace` never changes a descriptor's data pointer. -/
theorem processFace_data (fr : frame_t) (b : ir_data_buffer_t) :
    (processFace fr b).2.data = b.data := by
  unfold processFace
  repeat' split
  all_goals rfl

/-- `processFace` never clears a descriptor's ready flag. -/
theorem processFace_ready_mono (fr : frame_t) (b : ir_data_buffer_t)
    (h : b.ready_flag = true) : (processFace fr b).2.ready_flag = true := by
  unfold processFace
  repeat' split
  all_goals first | rfl | exact h

/-- Faces at or beyond the loop bound are untouched by the IR loop. -/
theorem processIRUpTo_ge (frames : Nat → frame_t)
    (bufs : Nat → ir_data_buffer_t) (n f : Nat) (h : n ≤ f) :
    processIRUpTo frames bufs n f = bufs f := by
  induction n with
  | zero => rfl
  | succ k ih =>
    have hf : ¬ f = k := by omega
    simp only [processIRUpTo, if_neg hf]
    exact ih (by omega)

/-- Each face below the loop bound gets exactly one `processFace` pass,
applied to its own original descriptor. -/
theorem processIRUpTo_lt (frames : Nat → frame_t)
    (bufs : Nat → ir_data_buffer_t) (n f : Nat) (h : f < n) :
    processIRUpTo frames bufs n f = (processFace (frames f) (bufs f)).2 := by
  induction n with
  | zero => omega
  | succ k ih =>
    by_cases hf : f = k
    · subst hf
      simp [processIRUpTo, processIRUpTo_ge frames bufs f f (Nat.le_refl f)]
    · simp only [processIRUpTo, if_neg hf]
      exact ih (by omega)

/-- Faces at or beyond the loop bound are untouched by the startup loop. -/
theorem startupBuffersUpTo_ge (addr : Nat → Nat)
    (bufs : Nat → ir_data_buffer_t) (n f : Nat) (h : n ≤ f) :
    startupBuffersUpTo addr bufs n f = bufs f := by
  induction n with
  | zero => rfl
  | succ k ih =>
    have hf : ¬ f = k := by omega
    simp only [startupBuffersUpTo, if_neg hf]
    exact ih (by omega)

/-- Each face below the loop bound gets its pointer and cleared ready flag
set by the startup loop. -/
theorem startupBuffersUpTo_lt (addr : Nat → Nat)
    (bufs : Nat → ir_data_buffer_t) (n f : Nat) (h : f < n) :
    startupBuffersUpTo addr bufs n f =
      { bufs f with data := addr f + 1, ready_flag := false } := by
  induction n with
  | zero => omega
  | succ k ih =>
    by_cases hf : f = k
    · subst hf
      simp [startupBuffersUpTo,
        startupBuffersUpTo_ge addr bufs f f (Nat.le_refl f)]
    · simp only [startupBuffersUpTo, if_neg hf]
      exact ih (by omega)

/-- Pointwise description of the pixel-forwarding loop: a face's display
slot is overwritten exactly when the face is in range and its dirty bit is
set. -/
theorem applyColorsUpTo_spec (lout : loopstate_out_t)
    (disp : Nat → pixelColor_t) (n f : Nat) :
    applyColorsUpTo lout disp n f =
      if f < n ∧ (lout.colors f).reserved then lout.colors f else disp f := by
  induction n with
  | zero => simp [applyColorsUpTo]
  | succ k ih =>
    by_cases hres : (lout.colors k).reserved
    · by_cases hf : f = k
      · subst hf
        simp [applyColorsUpTo, hres]
      · simp only [applyColorsUpTo, if_pos hres, if_neg hf, ih]
        have hiff : (f < k + 1) ↔ (f < k) := by omega
        simp only [hiff]
    · simp only [applyColorsUpTo, if_neg hres, ih]
      by_cases hf : f = k
      · subst hf
        simp [hres]
      · have hiff : (f < k + 1) ↔ (f < k) := by omega
        simp only [hiff]

/-- The `loopstate_in` record observed by the user callback in one
iteration. -/
theorem runIteration_obs (env : iterenv_t) (s : sysstate_t) :
    (runIteration env s).2 =
      { woke_flag := s.lin.woke_flag
        millis := env.millis_snapshot
        buttonstate := (grabAndClearButtonState s.buttonstate).2
        ir_data_buffers :=
          processIRUpTo env.frames s.lin.ir_data_buffers IR_FACE_COUNT } := rfl

/-- The woke flag after one iteration: set by `sleep()` on timer expiry,
otherwise carried over unchanged (the core never clears it). -/
theorem runIteration_state_woke (env : iterenv_t) (s : sysstate_t) :
    (runIteration env s).1.lin.woke_flag =
      if s.deadline ≤ env.millis_snapshot then true else s.lin.woke_flag := rfl

/-- The display buffer after one iteration is the dirty-bit-gated forward of
the callback's colors. -/
theorem runIteration_state_display (env : iterenv_t) (s : sysstate_t) :
    (runIteration env s).1.display =
      applyColorsUpTo env.lout s.display PIXEL_FACE_COUNT := rfl

/-- The IR descriptors after one iteration are the result of the pipeline
pass. -/
theorem runIteration_state_bufs (env : iterenv_t) (s : sysstate_t) :
    (runIteration env s).1.lin.ir_data_buffers =
      processIRUpTo env.frames s.lin.ir_data_buffers IR_FACE_COUNT := rfl

/-- An awake step that does not reach the deadline just advances the
clock. -/
theorem sleepSimStep_awake_run (m d c : Nat) (h : ¬ d ≤ m + 1) :
    sleepSimStep
        { millis := m, deadline := d, asleep := false, sleepCount := c } =
      { millis := m + 1, deadline := d, asleep := false, sleepCount := c } := by
  simp [sleepSimStep, h]

/-- An awake step that reaches the deadline executes the Awake-to-Asleep
transition. -/
theorem sleepSimStep_awake_expire (m d c : Nat) (h : d ≤ m + 1) :
    sleepSimStep
        { millis := m, deadline := d, asleep := false, sleepCount := c } =
      { millis := m + 1, deadline := d, asleep := true,
        sleepCount := c + 1 } := by
  simp [sleepSimStep, h]

/-- With no button activity there is no wake interrupt, so the asleep state
is absorbing. -/
theorem sleepSimStep_asleep (s : sleepsim_t) (h : s.asleep = true) :
    sleepSimStep s = s := by
  simp [sleepSimStep, h]

/-- Before the timeout the scenario just counts milliseconds: no transition
has been executed. -/
theorem sleepSim_run (n : Nat) (h : n < 600000) :
    sleepSimStep^[n] sleepSimInit =
      { millis := n, deadline := 600000, asleep := false,
        sleepCount := 0 } := by
  induction n with
  | zero => rfl
  | succ k ih =>
    rw [Function.iterate_succ_apply', ih (by omega),
      sleepSimStep_awake_run k 600000 0 (by omega)]

/-- At the 600000th tick the deadline is reached and the transition runs
once. -/
theorem sleepSim_at_timeout :
    sleepSimStep^[600000] sleepSimInit =
      { millis := 600000, deadline := 600000, asleep := true,
        sleepCount := 1 } := by
  rw [show (600000 : Nat) = 599999 + 1 by norm_num,
    Function.iterate_succ_apply', sleepSim_run 599999 (by norm_num),
    sleepSimStep_awake_expire 599999 600000 0 (by norm_num)]

/-- From the 600000th tick on, the scenario sits in the absorbing asleep
state with exactly one executed transition. -/
theorem sleepSim_expired_state (n : Nat) (h : 600000 ≤ n) :
    sleepSimStep^[n] sleepSimInit =
      { millis := 600000, deadline := 600000, asleep := true,
        sleepCount := 1 } := by
  induction n, h using Nat.le_induction with
  | base => exact sleepSim_at_timeout
  | succ m hm ih =>
    rw [Function.iterate_succ_apply', ih, sleepSimStep_asleep _ rfl]

/-! Claim theorems. -/

/-- C1 counterexample: the concrete frame `[0x01, 0xF4]` (length 2, valid
CRC, header 0x01) is routed to userland, but the surfaced descriptor length
is `1 = len - 1`, not `len - 2 = 0` as the claim states. -/
theorem C1_counterexample :
    (frame_t.mk true 2 (fun i => if i = 0 then 1 else 244)).ready = true ∧
    2 ≤ (frame_t.mk true 2 (fun i => if i = 0 then 1 else 244)).len ∧
    crccheck (fun i => if i = 0 then 1 else 244) 2 = true ∧
    (fun i => if i = 0 then 1 else 244) 0 % 256 = 1 ∧
    ¬ ((processFace (frame_t.mk true 2 (fun i => if i = 0 then 1 else 244))
          (ir_data_buffer_t.mk 0 0 false)).2.len =
        (frame_t.mk true 2 (fun i => if i = 0 then 1 else 244)).len - 2) := by
  decide

/-- C1 (amended): for every valid inbound IR frame (length at least 2,
checksum matches) whose header byte is 0x01, the pipeline surfaces the
payload on that face: the descriptor length is set to the total frame length
minus 1, the ready flag is set, and the frame is not marked consumed by the
pipeline. -/
theorem C1_user_data_routing (fr : frame_t) (b : ir_data_buffer_t)
    (hready : fr.ready = true) (hlen : 2 ≤ fr.len)
    (hcrc : crccheck fr.bytes fr.len = true) (hhdr : fr.bytes 0 % 256 = 1) :
    processFace fr b =
      (false, { b with len := fr.len - 1, ready_flag := true }) := by
  have h2 : ¬ fr.len < 2 := by omega
  simp [processFace, hready, h2, hcrc, hhdr]

/-- Witness for C1: the routing theorem applied to the concrete valid frame
`[0x01, 0xF4]`. -/
theorem C1_user_data_routing_witness :
    processFace (frame_t.mk true 2 (fun i => if i = 0 then 1 else 244))
        (ir_data_buffer_t.mk 0 0 false) =
      (false, ir_data_buffer_t.mk 0 1 true) :=
  C1_user_data_routing (frame_t.mk true 2 (fun i => if i = 0 then 1 else 244))
    (ir_data_buffer_t.mk 0 0 false) rfl (by norm_num) (by decide) (by decide)

/-- C2: a ready inbound frame of length at least 2 is treated as valid iff
its final byte equals the CRC-8-CCITT (seed 0xFF) of all preceding bytes,
and a frame failing this check is immediately marked consumed with nothing
surfaced. -/
theorem C2_checksum_validation (fr : frame_t) (b : ir_data_buffer_t)
    (hready : fr.ready = true) (hlen : 2 ≤ fr.len) (hlen2 : fr.len ≤ 255)
    (hbytes : ∀ i, fr.bytes i < 256) :
    (crccheck fr.bytes fr.len = true ↔
      fr.bytes (fr.len - 1) = crcFold fr.bytes (fr.len - 1)) ∧
    (crccheck fr.bytes fr.len = false → processFace fr b = (true, b)) := by
  constructor
  · rw [crccheck_eq fr.bytes fr.len hlen hlen2,
      Nat.mod_eq_of_lt (hbytes (fr.len - 1))]
    exact beq_iff_eq
  · intro hfail
    have h2 : ¬ fr.len < 2 := by omega
    simp [processFace, hready, h2, hfail]

/-- Witness for C2: the frame `[0x00, 0x00]` fails its checksum and is
consumed with the descriptor untouched. -/
theorem C2_checksum_validation_witness :
    processFace (frame_t.mk true 2 (fun _ => 0))
        (ir_data_buffer_t.mk 0 0 false) =
      (true, ir_data_buffer_t.mk 0 0 false) :=
  (C2_checksum_validation (frame_t.mk true 2 (fun _ => 0))
      (ir_data_buffer_t.mk 0 0 false) rfl (by norm_num) (by norm_num)
      (fun i => by norm_num)).2 (by decide)

/-- C4: every ready frame that is not a valid 0x01 user-data frame — too
short, failing the checksum, or carrying any other header — is marked
consumed and surfaces nothing: the descriptor is returned unchanged and no
error indication exists. -/
theorem C4_nonuser_frames_consumed (fr : frame_t) (b : ir_data_buffer_t)
    (hready : fr.ready = true)
    (h : fr.len < 2 ∨ crccheck fr.bytes fr.len = false ∨
      fr.bytes 0 % 256 ≠ 1) :
    processFace fr b = (true, b) := by
  rcases h with h | h | h
  · simp [processFace, hready, h]
  · by_cases h2 : fr.len < 2
    · simp [processFace, hready, h2]
    · simp [processFace, hready, h2, h]
  · by_cases h2 : fr.len < 2
    · simp [processFace, hready, h2]
    · by_cases hcrc : crccheck fr.bytes fr.len
      · simp [processFace, hready, h2, hcrc, h]
      · simp [processFace, hready, h2, hcrc]

/-- Witness for C4: a 1-byte frame is dropped with the descriptor
untouched. -/
theorem C4_nonuser_frames_consumed_witness :
    processFace (frame_t.mk true 1 (fun _ => 0))
        (ir_data_buffer_t.mk 0 0 false) =
      (true, ir_data_buffer_t.mk 0 0 false) :=
  C4_nonuser_frames_consumed (frame_t.mk true 1 (fun _ => 0))
    (ir_data_buffer_t.mk 0 0 false) rfl (Or.inl (by norm_num))

/-- Unfolding equation for one interrupt of the clock accumulator. -/
theorem timer_256us_step (s : clockstate_t) :
    timer_256us_callback_sei s =
      if 1000 ≤ s.step_us + 256 then
        { step_us := s.step_us + 256 - 1000,
          ms_callbacks := s.ms_callbacks + 1 }
      else
        { step_us := s.step_us + 256, ms_callbacks := s.ms_callbacks } := rfl

/-- C5: after `n` 256-time-unit timer interrupts, the millisecond callback
has run exactly `256 * n / 1000` times and the accumulator holds exactly the
remainder `256 * n % 1000` — no tick is ever lost and long-run drift is
zero. -/
theorem C5_millis_accumulator_exact (n : Nat) :
    (timer_256us_callback_sei^[n] clockInit).ms_callbacks = 256 * n / 1000 ∧
    (timer_256us_callback_sei^[n] clockInit).step_us = 256 * n % 1000 := by
  induction n with
  | zero => exact ⟨rfl, rfl⟩
  | succ k ih =>
    obtain ⟨ih1, ih2⟩ := ih
    rw [Function.iterate_succ_apply', timer_256us_step, ih1, ih2]
    by_cases hc : 1000 ≤ 256 * k % 1000 + 256
    · rw [if_pos hc]
      constructor
      · show 256 * k / 1000 + 1 = 256 * (k + 1) / 1000
        omega
      · show 256 * k % 1000 + 256 - 1000 = 256 * (k + 1) % 1000
        omega
    · rw [if_neg hc]
      constructor
      · show 256 * k / 1000 = 256 * (k + 1) / 1000
        omega
      · show 256 * k % 1000 + 256 = 256 * (k + 1) % 1000
        omega

/-- C6: `grabAndClearButtonState` copies all three fields to the
destination and zeroes only the flag bits in the source; two consecutive
grabs with no intervening tick return identical down and click-count values
and the second grab returns zero flag bits. -/
theorem C6_grab_and_clear (s : buttonstate_t) :
    (grabAndClearButtonState s).2 = s ∧
    (grabAndClearButtonState s).1.clickcount = s.clickcount ∧
    (grabAndClearButtonState s).1.down = s.down ∧
    (grabAndClearButtonState s).1.bitflags = 0 ∧
    (grabAndClearButtonState (grabAndClearButtonState s).1).2.down =
      (grabAndClearButtonState s).2.down ∧
    (grabAndClearButtonState (grabAndClearButtonState s).1).2.clickcount =
      (grabAndClearButtonState s).2.clickcount ∧
    (grabAndClearButtonState (grabAndClearButtonState s).1).2.bitflags = 0 :=
  ⟨rfl, rfl, rfl, rfl, rfl, rfl, rfl⟩

/-- C10: `crccheck` is reached only under the caller's length-at-least-2
guard (shorter ready frames are consumed without touching the bytes), and
under that guard it reads exactly the first `len - 1` bytes and the byte at
index `len - 1`: its result is unchanged under any modification of bytes
outside the frame. -/
theorem C10_crccheck_memory_safety (g g2 : Nat → Nat) (len : Nat)
    (h2 : 2 ≤ len) (h255 : len ≤ 255) (hag : ∀ i, i < len → g i = g2 i) :
    crccheck g len = crccheck g2 len ∧
    crccheck g len = (g (len - 1) % 256 == crcFold g (len - 1)) ∧
    (∀ (fr : frame_t) (b : ir_data_buffer_t), fr.ready = true →
      fr.len < 2 → processFace fr b = (true, b)) := by
  refine ⟨?_, crccheck_eq g len h2 h255, ?_⟩
  · rw [crccheck_eq g len h2 h255, crccheck_eq g2 len h2 h255,
      crcFold_congr g g2 (len - 1) (fun i hi => hag i (by omega)),
      hag (len - 1) (by omega)]
  · intro fr b hr hl
    simp [processFace, hr, hl]

/-- Witness for C10: changing bytes from index 2 on does not change the
verdict on a 2-byte frame. -/
theorem C10_crccheck_memory_safety_witness :
    crccheck (fun _ => 0) 2 = crccheck (fun i => if i < 2 then 0 else 99) 2 :=
  (C10_crccheck_memory_safety (fun _ => 0) (fun i => if i < 2 then 0 else 99)
    2 (by norm_num) (by norm_num) (fun i hi => by simp [hi])).1

/-- C3 counterexample: starting from an expired sleep deadline, one
iteration runs the sleep/wake cycle and sets the woke flag; after the
wake-time button activity postpones the deadline, the callback observes the
flag on the next iteration as specified — but also on the iteration after
that, so the wake event is not observed exactly once. -/
theorem C3_counterexample :
    ((runIteration c3_env c3_sPre).1.lin.woke_flag = true) ∧
    ¬ ((postponeSleep 0 (runIteration c3_env c3_sPre).1).deadline ≤
        c3_env.millis_snapshot) ∧
    ((runIteration c3_env
        (postponeSleep 0 (runIteration c3_env c3_sPre).1)).2.woke_flag
      = true) ∧
    ((runIteration c3_env
        ((runIteration c3_env
            (postponeSleep 0 (runIteration c3_env c3_sPre).1)).1)).2.woke_flag
      = true) := by
  decide

/-- C3 (amended): when the sleep timer expires in an iteration, the
Awake-to-Asleep-to-Awake cycle runs and the woke flag is set, so it appears
in the next LoopInput; but the core never clears the flag, so once set it
is observed by the user callback on every later iteration of the awake
period, not exactly once (clearing is left to code outside the core). -/
theorem C3_woke_flag_persistence (env : iterenv_t) (s : sysstate_t) :
    (s.deadline ≤ env.millis_snapshot →
      (runIteration env s).1.lin.woke_flag = true) ∧
    (s.lin.woke_flag = true →
      (runIteration env s).2.woke_flag = true ∧
      (runIteration env s).1.lin.woke_flag = true) := by
  constructor
  · intro h
    rw [runIteration_state_woke, if_pos h]
  · intro h
    refine ⟨h, ?_⟩
    rw [runIteration_state_woke]
    by_cases hc : s.deadline ≤ env.millis_snapshot
    · rw [if_pos hc]
    · rw [if_neg hc]
      exact h

/-- Witness for C3: the persistence theorem applied to the concrete
expired-deadline state. -/
theorem C3_woke_flag_persistence_witness :
    (runIteration c3_env c3_sPre).1.lin.woke_flag = true :=
  (C3_woke_flag_persistence c3_env c3_sPre).1 (by decide)

/-- C7: in one loop iteration, a face whose output color does not carry the
dirty bit keeps its previously rendered display color, and a face whose
color does carry it gets exactly that color forwarded to the display
buffer. -/
theorem C7_dirty_bit_gating (env : iterenv_t) (s : sysstate_t) (f : Nat)
    (hf : f < PIXEL_FACE_COUNT) :
    ((env.lout.colors f).reserved = false →
      (runIteration env s).1.display f = s.display f) ∧
    ((env.lout.colors f).reserved = true →
      (runIteration env s).1.display f = env.lout.colors f) := by
  rw [runIteration_state_display]
  constructor
  · intro h
    rw [applyColorsUpTo_spec]
    simp [h]
  · intro h
    rw [applyColorsUpTo_spec]
    simp [h, hf]

/-- Witness for C7: with face 0 dirty and face 1 clean, face 1's display
slot is untouched by the iteration. -/
theorem C7_dirty_bit_gating_witness :
    (runIteration c7_env c7_s).1.display 1 = c7_s.display 1 :=
  (C7_dirty_bit_gating c7_env c7_s 1 (by decide)).1 (by decide)

/-- C8: with no button activity after startup, the sleep deadline armed by
the startup `postponeSleep` first expires at the 600000th injected
millisecond tick: strictly before it no Awake-to-Asleep transition has been
executed, and from it on exactly one has. -/
theorem C8_sleep_after_timeout (n : Nat) :
    (n < 600000 → sleepCountAfter n = 0) ∧
    (600000 ≤ n → sleepCountAfter n = 1) := by
  constructor
  · intro h
    unfold sleepCountAfter
    rw [sleepSim_run n h]
  · intro h
    unfold sleepCountAfter
    rw [sleepSim_expired_state n h]

/-- Witness for C8: at exactly 600000 ticks, exactly one transition. -/
theorem C8_sleep_after_timeout_witness : sleepCountAfter 600000 = 1 :=
  (C8_sleep_after_timeout 600000).2 (by norm_num)

/-- C9: the startup loop points each face's descriptor at the driver packet
buffer plus one byte with the ready flag cleared; afterwards no iteration
ever changes a data pointer, and the core only ever sets ready flags, so a
flag set by a user-data frame persists across iterations unless cleared by
code outside the core. -/
theorem C9_pointer_and_ready_invariants (addr : Nat → Nat)
    (env : iterenv_t) (s : sysstate_t) (f : Nat) (hf : f < IR_FACE_COUNT) :
    (startupBuffersUpTo addr loopstate_in_init.ir_data_buffers
        IR_FACE_COUNT f).data = addr f + 1 ∧
    (startupBuffersUpTo addr loopstate_in_init.ir_data_buffers
        IR_FACE_COUNT f).ready_flag = false ∧
    ((runIteration env s).1.lin.ir_data_buffers f).data =
      (s.lin.ir_data_buffers f).data ∧
    ((s.lin.ir_data_buffers f).ready_flag = true →
      ((runIteration env s).1.lin.ir_data_buffers f).ready_flag = true) := by
  have hstart := startupBuffersUpTo_lt addr
    loopstate_in_init.ir_data_buffers IR_FACE_COUNT f hf
  refine ⟨by rw [hstart], by rw [hstart], ?_, ?_⟩
  · rw [runIteration_state_bufs, processIRUpTo_lt _ _ _ _ hf,
      processFace_data]
  · intro h
    rw [runIteration_state_bufs, processIRUpTo_lt _ _ _ _ hf]
    exact processFace_ready_mono _ _ h

/-- Witness for C9: a ready flag already set on face 0 is still set after
the next iteration. -/
theorem C9_pointer_and_ready_invariants_witness :
    ((runIteration c9_env c9_s).1.lin.ir_data_buffers 0).ready_flag = true :=
  (C9_pointer_and_ready_invariants (fun f => 100 * f) c9_env c9_s 0
    (by decide)).2.2.2 rfl

end Blinkos
